import Mathlib

/-
Verification of the warehouse inventory engine (package postgres of
auknl/warehouse) against its specification.

The Go store operations are shallowly embedded as pure Lean functions over an
explicit state, with an explicit fault schedule standing for the points where
the backing database can fail (transaction begin, a query, a row scan, a
statement execution, the commit).  Machine integers of the source are modelled
as Int with the exact overflow behaviour of the Go library calls involved.
-/

namespace Warehouse

/-! ## Data model (package data) -/

/-- A stock record: article id, article name and the stock quantity, which the
source system carries as decimal text. -/
structure Stock where
  artId : String
  name : String
  stock : String
deriving DecidableEq, Repr

/-- A product-availability record as returned by GetProductStock: the product
name and the available quantity, kept as the original text. -/
structure ProductStock where
  name : String
  availableProductNo : String
deriving DecidableEq, Repr

/-- One entry of a product's composition: the article id and the amount of
that article the product requires (carried as text by the upload payload). -/
structure ContainArticle where
  artId : String
  amountOf : String
deriving DecidableEq, Repr

/-- A product of the upload payload: its name and its composition list. -/
structure Product where
  name : String
  containArticles : List ContainArticle
deriving DecidableEq, Repr

/-- The products upload payload: an ordered sequence of products. -/
structure Products where
  products : List Product
deriving DecidableEq, Repr

/-- The inventory upload payload: an ordered sequence of stock records. -/
structure Inventory where
  inventory : List Stock
deriving DecidableEq, Repr

/-- Errors surfaced by the engine: a database-level error tagged by the
operation that failed, or an error built from a message string, as by the Go
standard library function errors.New. -/
inductive GoError where
  | dbError (op : String)
  | newError (msg : String)
deriving DecidableEq, Repr

/-! ## Go strconv.ParseInt

GetProductStock parses each availability quantity with
strconv.ParseInt(stock, 10, 64).  The Go library returns, together with a
non-nil error, the value 0 on a syntax error but the CLAMPED extreme value
(2^63 - 1 or -2^63) on an out-of-range input; the result below records the
value together with an ok flag (ok = false exactly when Go returns a non-nil
error). -/

/-- Result of a Go ParseInt call: the returned value and whether the call
succeeded (ok = false corresponds to a non-nil Go error). -/
structure ParseIntResult where
  value : Int
  ok : Bool
deriving DecidableEq, Repr

/-- Numeric value of a list of decimal digit characters. -/
def digitsToNat (ds : List Char) : Nat :=
  ds.foldl (fun acc c => acc * 10 + (c.toNat - 48)) 0

/-- Model of Go strconv.ParseInt(s, 10, 64): an optional sign followed by at
least one ASCII digit; anything else is a syntax error yielding value 0; a
syntactically valid input out of the signed 64-bit range yields the clamped
extreme together with a range error. -/
def parseInt64 (s : String) : ParseIntResult :=
  let cs := s.toList
  let signed : Bool × List Char :=
    match cs with
    | '+' :: rest => (false, rest)
    | '-' :: rest => (true, rest)
    | rest => (false, rest)
  let neg := signed.1
  let ds := signed.2
  if ds.isEmpty || !(ds.all Char.isDigit) then
    ⟨0, false⟩
  else
    let un := digitsToNat ds
    if neg then
      if 2 ^ 63 < un then ⟨-(2 ^ 63 : Int), false⟩ else ⟨-(un : Int), true⟩
    else
      if 2 ^ 63 ≤ un then ⟨(2 ^ 63 : Int) - 1, false⟩ else ⟨(un : Int), true⟩

/-! ## GetProductStock

The store query returns (product name, availability text) rows; the loop
parses each quantity leniently and appends the row to the result whenever the
parsed value is non-zero, keeping the original text. -/

/-- Embedding of the GetProductStock row loop: fold over the availability rows
returned by the store, keeping (with its original text) every row whose parsed
quantity is non-zero. -/
def getProductStock (rows : List (String × String)) : List ProductStock :=
  rows.foldl
    (fun stocks r =>
      if (parseInt64 r.2).value ≠ 0 then stocks ++ [⟨r.1, r.2⟩] else stocks)
    []

/-- The filter as the spec words it: keep a row exactly when its availability
text parses successfully AND the parsed value is non-zero; a row whose text
fails to parse is treated as zero and excluded.  This definition follows the
spec sentence, to be compared with the embedding of the code. -/
def getProductStockSpec (rows : List (String × String)) : List ProductStock :=
  (rows.filter fun r =>
      (parseInt64 r.2).ok && decide ((parseInt64 r.2).value ≠ 0)).map
    fun r => ⟨r.1, r.2⟩

/-- The code's loop keeps exactly the rows whose parsed value is non-zero,
whether or not the parse reported an error. -/
theorem getProductStock_foldl_eq (rows : List (String × String))
    (acc : List ProductStock) :
    rows.foldl
      (fun stocks r =>
        if (parseInt64 r.2).value ≠ 0 then stocks ++ [⟨r.1, r.2⟩] else stocks)
      acc =
      acc ++ (rows.filter fun r => decide ((parseInt64 r.2).value ≠ 0)).map
        fun r => (⟨r.1, r.2⟩ : ProductStock) := by
  induction rows generalizing acc with
  | nil => simp
  | cons r rs ih =>
    rw [List.foldl_cons, ih]
    by_cases h : (parseInt64 r.2).value ≠ 0
    · simp [h, List.filter_cons, List.append_assoc]
    · simp [h, List.filter_cons]

/-- GetProductStock returns, in order, exactly the rows whose text parses to a
non-zero value under the Go ParseInt semantics. -/
theorem getProductStock_eq_filter (rows : List (String × String)) :
    getProductStock rows =
      (rows.filter fun r => decide ((parseInt64 r.2).value ≠ 0)).map
        fun r => (⟨r.1, r.2⟩ : ProductStock) := by
  simpa [getProductStock] using getProductStock_foldl_eq rows []

/-! ## SellProduct

The store state carries, per product name, the flag row returned by the
product-exists query, the flag row returned by the product-in-stock query
(one flag row per query, as in the spec's query catalog), the per-article
stock quantities and the product composition.  The fault schedule says which
database step fails.  The embedding follows the Go control flow statement by
statement, including the use of the stale err variable (the BeginTx/Scan
error, nil on the paths that reach the query) where the code means to return
errQuery. -/

/-- Transactional store state seen by SellProduct. -/
structure StoreState where
  existsFlag : String → Int
  stockFlag : String → Int
  stocks : String → Int
  composition : String → List (String × Nat)

/-- Fault schedule for one SellProduct call: which database step fails. -/
structure SellFaults where
  beginFail : Bool
  existsQueryFail : Bool
  existsScanFail : Bool
  stockQueryFail : Bool
  stockScanFail : Bool
  execFail : Bool
  commitFail : Bool
deriving DecidableEq, Repr

/-- The fault-free schedule: every database step succeeds. -/
def noSellFaults : SellFaults :=
  ⟨false, false, false, false, false, false, false⟩

/-- Modelled from the spec: the updateSaleInfo statement (its SQL text is not
among the provided sources) applies the decrement-stock-for-product query,
decrementing every article in the product's composition by its required
amount (spec section 4.3, SellProduct step 4). -/
def applySale (st : StoreState) (productName : String) : StoreState :=
  { st with
    stocks := fun a =>
      (st.composition productName).foldl
        (fun q c => if c.1 = a then q - (c.2 : Int) else q) (st.stocks a) }

/-- Outcome of a SellProduct call: the returned Go error value (none is a nil
error), the persisted store state after the call, and whether the transaction
committed (false means it was rolled back). -/
structure SellOutcome where
  result : Option GoError
  state : StoreState
  committed : Bool

/-- The error returned when the product-exists flag is zero. -/
def productNotFoundError : GoError :=
  .newError "this product is not in system, cannot be sold"

/-- The error returned when the product-in-stock flag is non-zero. -/
def outOfStockError : GoError :=
  .newError "this product is not in stock, cannot be sold"

/-- Embedding of SellProduct.  A deferred rollback discards the transaction on
every early return, so the persisted state changes only when the commit
succeeds.  On a query failure the code returns the stale err variable, which
is nil at that point: this is modelled faithfully as a none result. -/
def sellProduct (st : StoreState) (f : SellFaults) (productName : String) :
    SellOutcome :=
  if f.beginFail then ⟨some (.dbError "begin"), st, false⟩
  else if f.existsQueryFail then
    ⟨none, st, false⟩
  else if f.existsScanFail then ⟨some (.dbError "scan"), st, false⟩
  else if st.existsFlag productName = 0 then
    ⟨some productNotFoundError, st, false⟩
  else if f.stockQueryFail then
    ⟨none, st, false⟩
  else if f.stockScanFail then ⟨some (.dbError "scan"), st, false⟩
  else if st.stockFlag productName ≠ 0 then
    ⟨some outOfStockError, st, false⟩
  else if f.execFail then ⟨some (.dbError "exec"), st, false⟩
  else if f.commitFail then ⟨some (.dbError "commit"), st, false⟩
  else ⟨none, applySale st productName, true⟩

/-! ## UploadProducts and UploadInventory

The persisted database is modelled as the lists of committed composition rows
and stock rows.  A transaction accumulates pending inserts; commit appends
them, rollback discards them.  The fault schedule gives the begin and commit
outcomes and, for each execution-ordered insert index, whether that insert
fails. -/

/-- One persisted composition row: (product name, article id, amount). -/
structure ProductRow where
  productName : String
  artId : String
  amountOf : String
deriving DecidableEq, Repr

/-- The persisted database: committed composition rows and stock rows. -/
structure WarehouseDB where
  productRows : List ProductRow
  stockRows : List Stock
deriving DecidableEq, Repr

/-- Fault schedule for one upload call: begin outcome, per-insert outcome
(indexed by execution order) and commit outcome. -/
structure UploadFaults where
  beginFail : Bool
  insertFails : Nat → Bool
  commitFail : Bool

/-- The composition rows UploadProducts inserts, in execution order: for each
product, one row per composition entry. -/
def flattenProducts (batch : Products) : List ProductRow :=
  batch.products.flatMap fun p =>
    p.containArticles.map fun c => ⟨p.name, c.artId, c.amountOf⟩

/-- Runs the insert loop from index i: stops with the database error of the
first failing insert, otherwise returns the pending rows. -/
def runInserts (fail : Nat → Bool) : Nat → List α → Except GoError (List α)
  | _, [] => .ok []
  | i, r :: rs =>
    if fail i then .error (.dbError "insert")
    else
      match runInserts fail (i + 1) rs with
      | .error e => .error e
      | .ok tail => .ok (r :: tail)

/-- Embedding of UploadProducts: begin a transaction, insert every composition
row of every product, then commit.  An insert failure rolls back and returns
the error with count 0.  A commit failure is only logged: the code falls
through and still returns a nil error with the product count, though the
rolled-back transaction persisted nothing. -/
def uploadProducts (db : WarehouseDB) (f : UploadFaults) (batch : Products) :
    (Option GoError × Nat) × WarehouseDB :=
  if f.beginFail then ((some (.dbError "begin"), 0), db)
  else
    match runInserts f.insertFails 0 (flattenProducts batch) with
    | .error e => ((some e, 0), db)
    | .ok pending =>
      ((none, batch.products.length),
       if f.commitFail then db
       else { db with productRows := db.productRows ++ pending })

/-- Embedding of UploadInventory: begin, insert one row per stock entry, then
commit.  An insert failure rolls back and returns the error with count 0.  A
commit failure rolls back and returns a nil error with count 0. -/
def uploadInventory (db : WarehouseDB) (f : UploadFaults) (batch : Inventory) :
    (Option GoError × Nat) × WarehouseDB :=
  if f.beginFail then ((some (.dbError "begin"), 0), db)
  else
    match runInserts f.insertFails 0 batch.inventory with
    | .error e => ((some e, 0), db)
    | .ok pending =>
      if f.commitFail then ((none, 0), db)
      else
        ((none, batch.inventory.length),
         { db with stockRows := db.stockRows ++ pending })

/-- When no insert up to the length of the list fails, the insert loop returns
the whole list as pending rows. -/
theorem runInserts_ok (fail : Nat → Bool) (k : Nat) (rows : List α)
    (h : ∀ i, i < rows.length → fail (k + i) = false) :
    runInserts fail k rows = .ok rows := by
  induction rows generalizing k with
  | nil => rfl
  | cons r rs ih =>
    have h0 : fail k = false := by simpa using h 0 (by simp)
    have hrec : runInserts fail (k + 1) rs = .ok rs := by
      refine ih (k + 1) fun i hi => ?_
      have hx := h (i + 1) (by simpa using Nat.succ_lt_succ hi)
      rwa [show k + (i + 1) = k + 1 + i from by omega] at hx
    rw [runInserts, h0, hrec]
    simp

/-- When some insert within the list fails, the insert loop returns an
error. -/
theorem runInserts_err (fail : Nat → Bool) (k : Nat) (rows : List α)
    (h : ∃ i, i < rows.length ∧ fail (k + i) = true) :
    ∃ e, runInserts fail k rows = .error e := by
  induction rows generalizing k with
  | nil =>
    obtain ⟨i, hi, -⟩ := h
    exact absurd hi (by simp)
  | cons r rs ih =>
    by_cases hk : fail k = true
    · exact ⟨.dbError "insert", by rw [runInserts, hk]; simp⟩
    · have hk' : fail k = false := by simpa using hk
      obtain ⟨i, hi, hf⟩ := h
      match i with
      | 0 => exact absurd hf (by simp [hk'])
      | j + 1 =>
        have hf' : fail (k + 1 + j) = true := by
          rwa [show k + (j + 1) = k + 1 + j from by omega] at hf
        obtain ⟨e, he⟩ :=
          ih (k + 1) ⟨j, by simpa using Nat.lt_of_succ_lt_succ hi, hf'⟩
        exact ⟨e, by rw [runInserts, hk', he]; simp⟩

/-! ## Concrete instances used by witnesses and counterexamples -/

/-- A store in which every product is registered but the in-stock flag is
non-zero (depleted backing stock). -/
def storeOutOfStock : StoreState :=
  ⟨fun _ => 1, fun _ => 1, fun _ => 5, fun _ => []⟩

/-- A store in which no product is registered. -/
def storeMissing : StoreState :=
  ⟨fun _ => 0, fun _ => 0, fun _ => 5, fun _ => []⟩

/-- A store in which every product is registered and sellable, with one
composed article. -/
def storeSellable : StoreState :=
  ⟨fun _ => 1, fun _ => 0, fun _ => 5, fun _ => [("a1", 2)]⟩

/-- Fault schedule in which only the product-exists query fails. -/
def existsQueryFaults : SellFaults :=
  ⟨false, true, false, false, false, false, false⟩

/-- Fault schedule in which only the product-in-stock query fails. -/
def stockQueryFaults : SellFaults :=
  ⟨false, false, false, true, false, false, false⟩

/-- An empty persisted database. -/
def emptyDB : WarehouseDB := ⟨[], []⟩

/-- Upload fault schedule in which every database step succeeds. -/
def noUploadFaults : UploadFaults := ⟨false, fun _ => false, false⟩

/-- Upload fault schedule in which only the final commit fails. -/
def commitFailFaults : UploadFaults := ⟨false, fun _ => false, true⟩

/-- A one-product batch whose product is composed of two articles. -/
def sampleProducts : Products :=
  ⟨[⟨"cozy", [⟨"a1", "2"⟩, ⟨"a2", "1"⟩]⟩]⟩

/-- A one-record inventory batch. -/
def sampleInventory : Inventory := ⟨[⟨"a1", "leg", "12"⟩]⟩

/-! ## Claim theorems -/

/-- C1: for every product registered in the store whose in-stock flag is
non-zero, SellProduct fails with the out-of-stock error, does not commit (the
deferred rollback discards the transaction) and leaves every article's stock
unchanged. -/
theorem sellProduct_out_of_stock (st : StoreState) (p : String)
    (hex : st.existsFlag p ≠ 0) (hstock : st.stockFlag p ≠ 0) :
    sellProduct st noSellFaults p = ⟨some outOfStockError, st, false⟩ := by
  simp [sellProduct, noSellFaults, hex, hstock]

/-- Witness for C1 at a concrete store and product. -/
theorem sellProduct_out_of_stock_witness :
    storeOutOfStock.existsFlag "cozy" ≠ 0 ∧
    storeOutOfStock.stockFlag "cozy" ≠ 0 ∧
    sellProduct storeOutOfStock noSellFaults "cozy" =
      ⟨some outOfStockError, storeOutOfStock, false⟩ :=
  ⟨by decide, by decide,
    sellProduct_out_of_stock storeOutOfStock "cozy" (by decide) (by decide)⟩

/-- C2: for every product whose product-exists flag is zero, SellProduct fails
with the product-not-found error, does not commit and leaves the stock
unchanged; no decrement is attempted. -/
theorem sellProduct_not_found (st : StoreState) (p : String)
    (hex : st.existsFlag p = 0) :
    sellProduct st noSellFaults p = ⟨some productNotFoundError, st, false⟩ := by
  simp [sellProduct, noSellFaults, hex]

/-- Witness for C2 at a concrete store and product. -/
theorem sellProduct_not_found_witness :
    storeMissing.existsFlag "ghost" = 0 ∧
    sellProduct storeMissing noSellFaults "ghost" =
      ⟨some productNotFoundError, storeMissing, false⟩ :=
  ⟨by decide, sellProduct_not_found storeMissing "ghost" (by decide)⟩

/-- C3 as stated is false: when the product-exists query itself fails, the
call neither fully succeeds (nothing is committed) nor fully fails with an
error (the stale err variable, which is nil, is returned). -/
theorem sellProduct_atomicity_counterexample :
    ¬ ((sellProduct storeSellable existsQueryFaults "cozy").result = none ∧
        (sellProduct storeSellable existsQueryFaults "cozy").committed = true ∧
        (sellProduct storeSellable existsQueryFaults "cozy").state =
          applySale storeSellable "cozy") ∧
    ¬ (∃ e,
        (sellProduct storeSellable existsQueryFaults "cozy").result = some e) := by
  constructor
  · rintro ⟨-, hc, -⟩
    simp [sellProduct, existsQueryFaults, storeSellable] at hc
  · rintro ⟨e, he⟩
    simp [sellProduct, existsQueryFaults, storeSellable] at he

/-- C3 amended: for every starting state, fault schedule and product name, the
call either fully succeeds (every composed article decremented and the
transaction committed) or persists nothing (state unchanged, nothing
committed); no partial decrement is ever persisted, though on an internal
query failure the nil result does not signal the failure. -/
theorem sellProduct_atomic (st : StoreState) (f : SellFaults) (p : String) :
    sellProduct st f p = ⟨none, applySale st p, true⟩ ∨
    ((sellProduct st f p).state = st ∧ (sellProduct st f p).committed = false) := by
  unfold sellProduct
  split_ifs <;> simp

/-- C4 is refuted by the code: when the product-exists query or the
product-in-stock query fails, SellProduct returns the stale err variable,
which is nil at that point, so the caller sees success instead of the query
failure. -/
theorem sellProduct_query_failure_returns_nil :
    (∀ (st : StoreState) (p : String),
      (sellProduct st existsQueryFaults p).result = none) ∧
    (sellProduct storeSellable stockQueryFaults "cozy").result = none := by
  constructor
  · intro st p
    simp [sellProduct, existsQueryFaults]
  · simp [sellProduct, stockQueryFaults, storeSellable]

/-- C5: the upload operations are all-or-nothing over the batch.  When every
insert and the commit succeed, the reported count is the number of records in
the batch (products for UploadProducts, stock rows for UploadInventory) and
the whole batch is persisted; when any single insert fails, the operation
returns an error with count 0 and persists no row of the batch. -/
theorem upload_all_or_nothing
    (db : WarehouseDB) (f : UploadFaults) (pb : Products) (ib : Inventory)
    (hb : f.beginFail = false) :
    ((∀ i, i < (flattenProducts pb).length → f.insertFails i = false) →
      f.commitFail = false →
      uploadProducts db f pb =
        ((none, pb.products.length),
         ⟨db.productRows ++ flattenProducts pb, db.stockRows⟩)) ∧
    ((∀ i, i < ib.inventory.length → f.insertFails i = false) →
      f.commitFail = false →
      uploadInventory db f ib =
        ((none, ib.inventory.length),
         ⟨db.productRows, db.stockRows ++ ib.inventory⟩)) ∧
    ((∃ i, i < (flattenProducts pb).length ∧ f.insertFails i = true) →
      ∃ e, uploadProducts db f pb = ((some e, 0), db)) ∧
    ((∃ i, i < ib.inventory.length ∧ f.insertFails i = true) →
      ∃ e, uploadInventory db f ib = ((some e, 0), db)) := by
  refine ⟨?_, ?_, ?_, ?_⟩
  · intro hins hc
    have hr := runInserts_ok f.insertFails 0 (flattenProducts pb)
      (fun i hi => by simpa using hins i hi)
    simp [uploadProducts, hb, hr, hc]
  · intro hins hc
    have hr := runInserts_ok f.insertFails 0 ib.inventory
      (fun i hi => by simpa using hins i hi)
    simp [uploadInventory, hb, hr, hc]
  · intro hex
    obtain ⟨i, hi, hf⟩ := hex
    obtain ⟨e, he⟩ := runInserts_err f.insertFails 0 (flattenProducts pb)
      ⟨i, hi, by simpa using hf⟩
    exact ⟨e, by simp [uploadProducts, hb, he]⟩
  · intro hex
    obtain ⟨i, hi, hf⟩ := hex
    obtain ⟨e, he⟩ := runInserts_err f.insertFails 0 ib.inventory
      ⟨i, hi, by simpa using hf⟩
    exact ⟨e, by simp [uploadInventory, hb, he]⟩

/-- Witness for C5: a fault-free run of both uploads on concrete one-record
batches persists exactly the batch and reports its size. -/
theorem upload_all_or_nothing_witness :
    noUploadFaults.beginFail = false ∧
    uploadProducts emptyDB noUploadFaults sampleProducts =
      ((none, 1), ⟨[⟨"cozy", "a1", "2"⟩, ⟨"cozy", "a2", "1"⟩], []⟩) ∧
    uploadInventory emptyDB noUploadFaults sampleInventory =
      ((none, 1), ⟨[], [⟨"a1", "leg", "12"⟩]⟩) := by
  have h :=
    upload_all_or_nothing emptyDB noUploadFaults sampleProducts sampleInventory
      rfl
  exact ⟨rfl, h.1 (fun _ _ => rfl) rfl, h.2.1 (fun _ _ => rfl) rfl⟩

/-- C6 as stated is false: on a commit failure after successful inserts,
UploadInventory reports a nil error but a count of zero, not the count of
stock rows in the batch. -/
theorem uploadInventory_commit_gap_counterexample :
    (uploadInventory emptyDB commitFailFaults sampleInventory).1.1 = none ∧
    (uploadInventory emptyDB commitFailFaults sampleInventory).1.2 = 0 ∧
    sampleInventory.inventory.length = 1 ∧
    (uploadInventory emptyDB commitFailFaults sampleInventory).1.2 ≠
      sampleInventory.inventory.length := by
  refine ⟨rfl, rfl, rfl, by decide⟩

/-- C6 amended: when every insert succeeds but the final commit fails,
UploadInventory still reports success (nil error), but with a count of zero,
and persists nothing. -/
theorem uploadInventory_commit_failure
    (db : WarehouseDB) (f : UploadFaults) (ib : Inventory)
    (hb : f.beginFail = false)
    (hins : ∀ i, i < ib.inventory.length → f.insertFails i = false)
    (hc : f.commitFail = true) :
    uploadInventory db f ib = ((none, 0), db) := by
  have hr := runInserts_ok f.insertFails 0 ib.inventory
    (fun i hi => by simpa using hins i hi)
  simp [uploadInventory, hb, hr, hc]

/-- Witness for the amended C6 at a concrete batch. -/
theorem uploadInventory_commit_failure_witness :
    commitFailFaults.beginFail = false ∧
    commitFailFaults.commitFail = true ∧
    uploadInventory emptyDB commitFailFaults sampleInventory =
      ((none, 0), emptyDB) :=
  ⟨rfl, rfl,
    uploadInventory_commit_failure emptyDB commitFailFaults sampleInventory rfl
      (fun _ _ => rfl) rfl⟩

/-- C7: when every composition-row insert succeeds but the final commit
fails, UploadProducts still reports success (nil error) with the product
count of the batch, and persists nothing. -/
theorem uploadProducts_commit_failure
    (db : WarehouseDB) (f : UploadFaults) (pb : Products)
    (hb : f.beginFail = false)
    (hins : ∀ i, i < (flattenProducts pb).length → f.insertFails i = false)
    (hc : f.commitFail = true) :
    uploadProducts db f pb = ((none, pb.products.length), db) := by
  have hr := runInserts_ok f.insertFails 0 (flattenProducts pb)
    (fun i hi => by simpa using hins i hi)
  simp [uploadProducts, hb, hr, hc]

/-- Witness for C7 at a concrete batch. -/
theorem uploadProducts_commit_failure_witness :
    commitFailFaults.beginFail = false ∧
    commitFailFaults.commitFail = true ∧
    uploadProducts emptyDB commitFailFaults sampleProducts =
      ((none, 1), emptyDB) :=
  ⟨rfl, rfl,
    uploadProducts_commit_failure emptyDB commitFailFaults sampleProducts rfl
      (fun _ _ => rfl) rfl⟩

/-- C8: whenever UploadProducts completes with a nil error, the reported
count is the number of products in the batch, not the number of composition
rows inserted. -/
theorem uploadProducts_counts_products
    (db : WarehouseDB) (f : UploadFaults) (pb : Products)
    (h : (uploadProducts db f pb).1.1 = none) :
    (uploadProducts db f pb).1.2 = pb.products.length := by
  by_cases hb : f.beginFail = true
  · exact absurd h (by simp [uploadProducts, hb])
  · have hb' : f.beginFail = false := by simpa using hb
    cases hr : runInserts f.insertFails 0 (flattenProducts pb) with
    | error e => exact absurd h (by simp [uploadProducts, hb', hr])
    | ok pending => simp [uploadProducts, hb', hr]

/-- Witness for C8: a product with two composition entries contributes one to
the count. -/
theorem uploadProducts_counts_products_witness :
    (uploadProducts emptyDB noUploadFaults sampleProducts).1.1 = none ∧
    (uploadProducts emptyDB noUploadFaults sampleProducts).1.2 = 1 ∧
    sampleProducts.products.length = 1 ∧
    (flattenProducts sampleProducts).length = 2 :=
  ⟨rfl,
    uploadProducts_counts_products emptyDB noUploadFaults sampleProducts rfl,
    rfl, rfl⟩

/-- C9 as stated is false: an out-of-range quantity text fails to parse, yet
Go ParseInt returns the clamped non-zero extreme rather than zero, so the
code includes the row while the spec's filter excludes it. -/
theorem getProductStock_parse_failure_counterexample :
    (parseInt64 "9223372036854775808").ok = false ∧
    getProductStock [("big", "9223372036854775808")] =
      [⟨"big", "9223372036854775808"⟩] ∧
    getProductStockSpec [("big", "9223372036854775808")] = [] := by
  refine ⟨by decide, by decide, by decide⟩

/-- C9 amended: GetProductStock returns, in order, exactly the rows whose
availability text parses to a non-zero value under Go ParseInt semantics:
syntactically invalid text yields zero and is excluded, while syntactically
valid but out-of-range text is clamped to a non-zero extreme and included; on
the spec's example only the gadget row is returned. -/
theorem getProductStock_filters_zero (rows : List (String × String)) :
    getProductStock rows =
      (rows.filter fun r => decide ((parseInt64 r.2).value ≠ 0)).map
        (fun r => (⟨r.1, r.2⟩ : ProductStock)) ∧
    getProductStock [("widget", "0"), ("gadget", "4")] = [⟨"gadget", "4"⟩] :=
  ⟨getProductStock_eq_filter rows, by decide⟩

/-- C10: a row whose quantity text parses to a negative value is included in
the GetProductStock result, carrying the original unparsed text. -/
theorem getProductStock_includes_negative (rows : List (String × String))
    (n s : String) (hmem : (n, s) ∈ rows)
    (hneg : (parseInt64 s).value < 0) :
    (⟨n, s⟩ : ProductStock) ∈ getProductStock rows := by
  rw [getProductStock_eq_filter]
  refine List.mem_map.mpr ⟨(n, s), List.mem_filter.mpr ⟨hmem, ?_⟩, rfl⟩
  simpa using ne_of_lt hneg

/-- Witness for C10 at a concrete negative-quantity row. -/
theorem getProductStock_includes_negative_witness :
    ("chair", "-3") ∈ [("chair", "-3")] ∧
    (parseInt64 "-3").value < 0 ∧
    (⟨"chair", "-3"⟩ : ProductStock) ∈ getProductStock [("chair", "-3")] :=
  ⟨by decide, by decide,
    getProductStock_includes_negative [("chair", "-3")] "chair" "-3"
      (by decide) (by decide)⟩

end Warehouse
